import Mathlib

/-!
# ckb-contract-guidelines: the loader script and the type-id logic

A shallow embedding of `c/bin_sample.c` (`main`) and `c/lib_sample.c`
(`validate_tx`).  Both programs are straight-line code over functions of
ckb-c-stdlib (`ckb_load_cell_data`, `ckb_dlopen2`, `ckb_dlsym`,
`ckb_load_type_id_from_script_args`, `ckb_validate_type_id`), whose bodies are
not among the sources: they are parameters of the embedding.  Every call to
one of them is logged, so that "is never invoked" and "is invoked with
argument 2" are statements about the log.

* a C `int` status is an `Int`; `uint64_t`/`size_t`/`uint8_t` values are `Nat`
  (no arithmetic is performed on them, only comparison and pass-through);
* an out-parameter is a field of the value the callee returns;
* a result `none` is a run that leaves defined behaviour (a call through a
  pointer at which no function lives, `NULL` included).
-/

namespace CkbGuidelines

/-! ## Data model -/

/-- A buffer `uint8_t buf[n]`: its `n` bytes. -/
abbrev Bytes (n : Nat) := { l : List Nat // l.length = n }

/-- Source selectors of the cell accessors; `main` uses only the one naming
the outputs of the running script's group. -/
inductive Source where
  | CKB_SOURCE_GROUP_OUTPUT
  deriving DecidableEq, Repr

/-- Modelled from the spec: the constant `CKB_SUCCESS` of ckb_consts.h, which
is not among the sources; "`0` = success, any nonzero = a specific failure". -/
def CKB_SUCCESS : Int := 0

/-- Line 4 of bin_sample.c; it only aligns `code_buffer`. -/
def RISCV_PGSIZE : Nat := 4096

/-- One logged call to a function that lives outside the two source files. -/
inductive Call where
  | load_cell_data (len offset index : Nat) (source : Source)
  | dlopen2 (dep_cell_hash : Bytes 33) (hash_type aligned_size : Nat)
  | dlsym (handle : Nat) (symbol : String)
  | invoke (addr arg : Nat)
  | load_type_id_from_script_args (offset : Nat)
  | validate_type_id (type_id : Bytes 32)
  deriving DecidableEq

/-- What a function did: the `int` it returned (`none` when the run left
defined behaviour) and the calls it made, oldest first. -/
structure Run where
  result : Option Int
  trace : List Call
  deriving DecidableEq

/-- Effect of `ckb_load_cell_data(data, &len, ...)`: the status, the buffer
`data` and the value left in `len`. -/
structure CellDataRead where
  ret : Int
  data : Bytes 33
  len : Nat

/-- Effect of `ckb_dlopen2(..., &handle, &consumed_size)`. -/
structure DlOpen where
  ret : Int
  handle : Nat
  consumed_size : Nat

/-- Effect of `ckb_load_type_id_from_script_args(offset, type_id)`. -/
structure ArgsRead where
  ret : Int
  type_id : Bytes 32

/-- The cell accessor used by `main`. -/
structure Syscalls where
  ckb_load_cell_data : (len offset index : Nat) → Source → CellDataRead

/-- The functions of ckb_dlfcn.h used by `main`, and the code reachable through
the pointers `ckb_dlsym` hands out: `text a` is the function stored at address
`a`, if any.  Address `0` is `NULL`.  Of the destination `code_buffer`, which
`main` leaves uninitialised, only the capacity is an input of the loader. -/
structure Dlfcn where
  ckb_dlopen2 : (dep_cell_hash : Bytes 33) → (hash_type aligned_size : Nat) → DlOpen
  ckb_dlsym : (handle : Nat) → (symbol : String) → Nat
  text : Nat → Option (Nat → Run)

/-- The functions of ckb_type_id.h used by `validate_tx`. -/
structure TypeId where
  ckb_load_type_id_from_script_args : (offset : Nat) → ArgsRead
  ckb_validate_type_id : (type_id : Bytes 32) → Int

/-! ## The programs -/

/-- The byte `data[32]` of a 33-byte buffer. -/
def byte32 (data : Bytes 33) : Nat :=
  data.val.get ⟨32, by rw [data.property]; decide⟩

/-- A call `f(arg)` through the function pointer `addr`. -/
def callPtr (dl : Dlfcn) (addr arg : Nat) : Run :=
  match (if addr = 0 then none else dl.text addr) with
  | none => ⟨none, [Call.invoke addr arg]⟩
  | some f => ⟨(f arg).result, Call.invoke addr arg :: (f arg).trace⟩

/-- The function `main` of bin_sample.c. -/
def main (sys : Syscalls) (dl : Dlfcn) : Run :=
  -- uint8_t data[33]; uint64_t len = 33;
  let rd := sys.ckb_load_cell_data 33 0 0 Source.CKB_SOURCE_GROUP_OUTPUT
  let data := rd.data
  let len := rd.len
  let ret := rd.ret
  let t1 := [Call.load_cell_data 33 0 0 Source.CKB_SOURCE_GROUP_OUTPUT]
  if ret ≠ CKB_SUCCESS then ⟨some ret, t1⟩
  else if len < 33 then ⟨some (-10), t1⟩
  else
    let hash_type := byte32 data
    let op := dl.ckb_dlopen2 data hash_type (128 * 1024)
    let handle := op.handle
    let ret := op.ret
    let t2 := t1 ++ [Call.dlopen2 data hash_type (128 * 1024)]
    if ret ≠ CKB_SUCCESS then ⟨some ret, t2⟩
    else
      let validate_func := dl.ckb_dlsym handle "validate_tx"
      let t3 := t2 ++ [Call.dlsym handle "validate_tx"]
      -- line 27 tests `ret`, which the test just above left equal to CKB_SUCCESS
      if ret ≠ CKB_SUCCESS then ⟨some (-11), t3⟩
      else
        let r := callPtr dl validate_func 2
        ⟨r.result, t3 ++ r.trace⟩

/-- The function `validate_tx` of lib_sample.c. -/
def validate_tx (lib : TypeId) (offset : Nat) : Run :=
  -- uint8_t type_id[32];
  let rd := lib.ckb_load_type_id_from_script_args offset
  let type_id := rd.type_id
  let ret := rd.ret
  let t1 := [Call.load_type_id_from_script_args offset]
  if ret ≠ CKB_SUCCESS then ⟨some ret, t1⟩
  else ⟨some (lib.ckb_validate_type_id type_id), t1 ++ [Call.validate_type_id type_id]⟩

/-- The cell-data read `main` performs on line 9. -/
def cellRead (sys : Syscalls) : CellDataRead :=
  sys.ckb_load_cell_data 33 0 0 Source.CKB_SOURCE_GROUP_OUTPUT

/-- The load `main` performs on line 20, on the buffer the read left. -/
def cellLoad (sys : Syscalls) (dl : Dlfcn) : DlOpen :=
  dl.ckb_dlopen2 (cellRead sys).data (byte32 (cellRead sys).data) (128 * 1024)

/-- The trace of `main` up to the read. -/
def traceRead : List Call :=
  [Call.load_cell_data 33 0 0 Source.CKB_SOURCE_GROUP_OUTPUT]

/-- The trace of `main` up to the load. -/
def traceLoad (sys : Syscalls) : List Call :=
  [Call.load_cell_data 33 0 0 Source.CKB_SOURCE_GROUP_OUTPUT,
   Call.dlopen2 (cellRead sys).data (byte32 (cellRead sys).data) 131072]

/-- The trace of `main` up to the symbol lookup. -/
def traceLookup (sys : Syscalls) (dl : Dlfcn) : List Call :=
  [Call.load_cell_data 33 0 0 Source.CKB_SOURCE_GROUP_OUTPUT,
   Call.dlopen2 (cellRead sys).data (byte32 (cellRead sys).data) 131072,
   Call.dlsym (cellLoad sys dl).handle "validate_tx"]

/-- The loader `dl` with lib_sample's `validate_tx`, running over `lib`, stored
at address `addr`: the end-to-end composition of the two programs. -/
def linked (dl : Dlfcn) (addr : Nat) (lib : TypeId) : Dlfcn :=
  { dl with text := fun a => if a = addr then some (validate_tx lib) else dl.text a }

/-! ## The parts the sources only call -/

/-- A failure status: "`0` = success, any nonzero = a specific failure". -/
abbrev Failure := { c : Int // c ≠ 0 }

/-- Modelled from the spec: the selector check of the loader `ckb_dlopen2`
(ckb_dlfcn.h is not among the sources): "`format_selector` ∈ {0 =
RawExecutable, 1 = SharedLoadable} (values outside this set fail)", the failure
being `UnsupportedFormat`.  For a supported selector the loader proceeds as
`load`, whose validation and mapping depend on the image format. -/
def spec_dlopen2 (UnsupportedFormat : Failure) (load : Bytes 33 → Nat → Nat → DlOpen)
    (image : Bytes 33) (format_selector dest_capacity : Nat) : DlOpen :=
  if format_selector = 0 ∨ format_selector = 1 then load image format_selector dest_capacity
  else ⟨UnsupportedFormat.val, 0, 0⟩

/-- Modelled from the spec: the verifier `ckb_validate_type_id` (ckb_type_id.h
is not among the sources): "byte-exact equality between the recomputed
canonical identity and the 32-byte `candidate` read from arguments.  Equality ⇒
success; any mismatch ⇒ `Mismatch`".  `recomputed` is the identity derived from
the transaction, `none` when the transaction accessors cannot supply it
(`TransactionDataUnavailable`). -/
def spec_validate_type_id (Mismatch TransactionDataUnavailable : Failure)
    (recomputed : Option (Bytes 32)) (candidate : Bytes 32) : Int :=
  match recomputed with
  | none => TransactionDataUnavailable.val
  | some id => if candidate = id then CKB_SUCCESS else Mismatch.val

/-- Modelled from the spec: the reader `ckb_load_type_id_from_script_args`
(ckb_type_id.h is not among the sources): "reads 32 bytes starting at
`arg_offset` from the invoking script's argument bytes; fails with
`ArgsTooShort` if fewer than 32 bytes are available from that offset".  On
failure the buffer keeps what it held, `stale`. -/
def spec_load_type_id_from_script_args (ArgsTooShort : Failure) (args : List Nat)
    (stale : Bytes 32) (offset : Nat) : ArgsRead :=
  if h : offset + 32 ≤ args.length then
    ⟨CKB_SUCCESS, ⟨(args.drop offset).take 32, by
      rw [List.length_take, List.length_drop]; omega⟩⟩
  else ⟨ArgsTooShort.val, stale⟩

/-- The buffer `b` with bit `k` of its byte `i` flipped. -/
def flipBit {n : Nat} (b : Bytes n) (i k : Nat) : Bytes n :=
  ⟨b.val.set i (b.val.getD i 0 ^^^ 2 ^ k), by rw [List.length_set]; exact b.property⟩

/-- The kinds of failure told apart by the exit status. -/
inductive FailureKind where
  | data
  | loader
  | verification
  deriving DecidableEq, Repr

/-- The kind of failure of a run of `main`, by the stage that fails: the
cell-data read (its own status, or the short read), the loader, or the loaded
function returning nonzero.  `none` for a run that succeeds or that leaves
defined behaviour. -/
def failureKind (sys : Syscalls) (dl : Dlfcn) : Option FailureKind :=
  let rd := cellRead sys
  if rd.ret ≠ CKB_SUCCESS ∨ rd.len < 33 then some FailureKind.data
  else
    let op := cellLoad sys dl
    if op.ret ≠ CKB_SUCCESS then some FailureKind.loader
    else
      match (callPtr dl (dl.ckb_dlsym op.handle "validate_tx") 2).result with
      | some c => if c ≠ CKB_SUCCESS then some FailureKind.verification else none
      | none => none

/-- The stages of the run `main sys dl` draw their failure statuses according
to `kindOf`: the accessor from the data statuses, the loader from the loader
statuses, the loaded function from the verification statuses. -/
def Respects (kindOf : Int → FailureKind) (sys : Syscalls) (dl : Dlfcn) : Prop :=
  let rd := cellRead sys
  let op := cellLoad sys dl
  (rd.ret ≠ CKB_SUCCESS → kindOf rd.ret = FailureKind.data)
  ∧ (op.ret ≠ CKB_SUCCESS → kindOf op.ret = FailureKind.loader)
  ∧ (∀ c, (callPtr dl (dl.ckb_dlsym op.handle "validate_tx") 2).result = some c →
      c ≠ CKB_SUCCESS → kindOf c = FailureKind.verification)

/-! ## Concrete environments -/

/-- Thirty-three zero bytes except for the last, the selector `sel`. -/
def cellBytes (sel : Nat) : Bytes 33 := ⟨List.replicate 32 0 ++ [sel], by simp⟩

/-- An accessor answering every read with status `ret`, the thirty-two zero
bytes followed by `sel`, and length `len`. -/
def sysOf (ret : Int) (sel len : Nat) : Syscalls :=
  ⟨fun _ _ _ _ => ⟨ret, cellBytes sel, len⟩⟩

/-- A loader answering every request with status `ret` and handle `7`, in whose
module `validate_tx` sits at address `addr` and behaves as `f`. -/
def dlOf (ret : Int) (addr : Nat) (f : Nat → Run) : Dlfcn :=
  ⟨fun _ _ _ => ⟨ret, 7, 8192⟩,
   fun _ symbol => if symbol = "validate_tx" then addr else 0,
   fun a => if a = addr then some f else none⟩

/-- Thirty-two bytes, all equal to `b`. -/
def constId (b : Nat) : Bytes 32 := ⟨List.replicate 32 b, by simp⟩

/-- The library of ckb_type_id.h as the spec describes it, over the script
arguments `args` and the recomputed identity `recomputed`; its failure statuses
are -1 (`ArgsTooShort`), -2 (`Mismatch`) and -3 (`TransactionDataUnavailable`). -/
def libOf (args : List Nat) (recomputed : Option (Bytes 32)) : TypeId :=
  ⟨spec_load_type_id_from_script_args ⟨-1, by decide⟩ args (constId 0),
   spec_validate_type_id ⟨-2, by decide⟩ ⟨-3, by decide⟩ recomputed⟩

/-- Script arguments of scenario A: two leading bytes, then the identity made
of thirty-two bytes 7. -/
def scenarioArgs : List Nat := [0, 0] ++ List.replicate 32 7

/-- A loader that finds its code cell by the hash in the first 32 bytes of the
buffer it is handed: the cell whose hash is all zeros holds the module (handle
7, `validate_tx` at address 4096, running lib_sample's code over `lib`); for any
other hash it fails with status 1. -/
def hashLoader (lib : TypeId) : Dlfcn :=
  ⟨fun dep_cell_hash _ _ =>
      if dep_cell_hash.val.take 32 = List.replicate 32 0 then ⟨0, 7, 8192⟩ else ⟨1, 0, 0⟩,
   fun _ symbol => if symbol = "validate_tx" then 4096 else 0,
   fun a => if a = 4096 then some (validate_tx lib) else none⟩

/-- An accessor answering every read with success, the buffer `data` and
length 33. -/
def sysData (data : Bytes 33) : Syscalls :=
  ⟨fun _ _ _ _ => ⟨0, data, 33⟩⟩

/-- A loader that rejects the selectors outside {0, 1} with status -4, as the
spec has it, and otherwise succeeds with handle 7; `validate_tx` sits at
address 4096 and returns 0. -/
def selectorLoader : Dlfcn :=
  ⟨spec_dlopen2 ⟨-4, by decide⟩ (fun _ _ _ => ⟨0, 7, 8192⟩),
   fun _ symbol => if symbol = "validate_tx" then 4096 else 0,
   fun a => if a = 4096 then some (fun _ => ⟨some 0, []⟩) else none⟩

/-- A classification of statuses by sign and size: -10 and the positive ones
are data statuses, those below -10 loader statuses, the others verification
statuses. -/
def kindBySign (c : Int) : FailureKind :=
  if c = -10 ∨ 0 < c then FailureKind.data
  else if c < -10 then FailureKind.loader
  else FailureKind.verification

/-! ## Theorems -/

/-- A read that fails ends `main` with the read's status. -/
theorem main_of_read_failed (sys : Syscalls) (dl : Dlfcn)
    (h : (cellRead sys).ret ≠ CKB_SUCCESS) :
    main sys dl = ⟨some (cellRead sys).ret, traceRead⟩ := by
  simp only [cellRead] at h
  simp only [main, cellRead, traceRead, h, ne_eq, not_false_eq_true, if_true]

/-- A short read ends `main` with -10. -/
theorem main_of_read_short (sys : Syscalls) (dl : Dlfcn)
    (h : (cellRead sys).ret = CKB_SUCCESS) (hlen : (cellRead sys).len < 33) :
    main sys dl = ⟨some (-10), traceRead⟩ := by
  simp only [cellRead] at h hlen
  simp only [main, traceRead, h, hlen, ne_eq, not_true_eq_false, if_false, if_true]

/-- A load that fails ends `main` with the load's status. -/
theorem main_of_load_failed (sys : Syscalls) (dl : Dlfcn)
    (h : (cellRead sys).ret = CKB_SUCCESS) (hlen : 33 ≤ (cellRead sys).len)
    (hl : (cellLoad sys dl).ret ≠ CKB_SUCCESS) :
    main sys dl = ⟨some (cellLoad sys dl).ret, traceLoad sys⟩ := by
  have hlen2 : ¬ (cellRead sys).len < 33 := Nat.not_lt.mpr hlen
  simp only [cellLoad, cellRead] at h hlen2 hl
  simp only [main, cellLoad, cellRead, traceLoad, h, hlen2, hl, ne_eq, not_true_eq_false,
    not_false_eq_true, if_true, if_false, List.singleton_append]

/-- After a successful read of at least 33 bytes and a successful load, `main`
looks `validate_tx` up and calls the address it gets with argument 2. -/
theorem main_of_load_ok (sys : Syscalls) (dl : Dlfcn)
    (h : (cellRead sys).ret = CKB_SUCCESS) (hlen : 33 ≤ (cellRead sys).len)
    (hl : (cellLoad sys dl).ret = CKB_SUCCESS) :
    main sys dl
      = ⟨(callPtr dl (dl.ckb_dlsym (cellLoad sys dl).handle "validate_tx") 2).result,
         traceLookup sys dl
           ++ (callPtr dl (dl.ckb_dlsym (cellLoad sys dl).handle "validate_tx") 2).trace⟩ := by
  have hlen2 : ¬ (cellRead sys).len < 33 := Nat.not_lt.mpr hlen
  simp only [cellLoad, cellRead] at h hlen2 hl
  simp only [main, cellLoad, cellRead, traceLookup, h, hlen2, hl, ne_eq, not_true_eq_false,
    if_false, List.singleton_append, List.cons_append, List.nil_append]

/-- End to end: with lib_sample's `validate_tx` at the address `validate_tx`
resolves to, `main` returns what `validate_tx lib 2` returns. -/
theorem main_linked (sys : Syscalls) (dl : Dlfcn) (a : Nat) (lib : TypeId)
    (h : (cellRead sys).ret = CKB_SUCCESS) (hlen : 33 ≤ (cellRead sys).len)
    (hl : (cellLoad sys dl).ret = CKB_SUCCESS)
    (hsym : dl.ckb_dlsym (cellLoad sys dl).handle "validate_tx" = a) (ha : a ≠ 0) :
    main sys (linked dl a lib)
      = ⟨(validate_tx lib 2).result,
         traceLookup sys dl ++ Call.invoke a 2 :: (validate_tx lib 2).trace⟩ := by
  have hl2 : (cellLoad sys (linked dl a lib)).ret = CKB_SUCCESS := hl
  have hsym2 : (linked dl a lib).ckb_dlsym (cellLoad sys (linked dl a lib)).handle
      "validate_tx" = a := hsym
  rw [main_of_load_ok sys (linked dl a lib) h hlen hl2, hsym2]
  simp only [callPtr, ha, if_false, linked, if_true, traceLookup, cellLoad]

/-- A failed read of the arguments ends `validate_tx` with the read's status. -/
theorem validate_tx_of_read_failed (lib : TypeId) (offset : Nat)
    (h : (lib.ckb_load_type_id_from_script_args offset).ret ≠ CKB_SUCCESS) :
    validate_tx lib offset
      = ⟨some (lib.ckb_load_type_id_from_script_args offset).ret,
         [Call.load_type_id_from_script_args offset]⟩ := by
  simp only [validate_tx, h, ne_eq, not_false_eq_true, if_true]

/-- After a successful read of the arguments `validate_tx` returns what the
verifier returns on the bytes read. -/
theorem validate_tx_of_read_ok (lib : TypeId) (offset : Nat)
    (h : (lib.ckb_load_type_id_from_script_args offset).ret = CKB_SUCCESS) :
    validate_tx lib offset
      = ⟨some (lib.ckb_validate_type_id (lib.ckb_load_type_id_from_script_args offset).type_id),
         [Call.load_type_id_from_script_args offset,
          Call.validate_type_id (lib.ckb_load_type_id_from_script_args offset).type_id]⟩ := by
  simp only [validate_tx, h, ne_eq, not_true_eq_false, if_false, List.singleton_append]

/-- Reading back the byte just written. -/
theorem getD_set_same (l : List Nat) (i v : Nat) (h : i < l.length) :
    (l.set i v).getD i 0 = v := by
  simp [List.getD_eq_getElem?_getD, h]

/-- Flipping a bit of a byte inside the buffer changes the buffer. -/
theorem flipBit_ne {n : Nat} (b : Bytes n) (i k : Nat) (hi : i < n) : flipBit b i k ≠ b := by
  intro h
  have hv : b.val.set i (b.val.getD i 0 ^^^ 2 ^ k) = b.val := congrArg Subtype.val h
  have hlt : i < b.val.length := by rw [b.property]; exact hi
  have hg : (b.val.set i (b.val.getD i 0 ^^^ 2 ^ k)).getD i 0 = b.val.getD i 0 ^^^ 2 ^ k :=
    getD_set_same b.val i _ hlt
  rw [hv] at hg
  have h2 : b.val.getD i 0 ^^^ (b.val.getD i 0 ^^^ 2 ^ k) = b.val.getD i 0 ^^^ b.val.getD i 0 := by
    rw [← hg]
  rw [Nat.xor_cancel_left, Nat.xor_self] at h2
  exact (Nat.two_pow_pos k).ne' h2

/-- A failing run of `main` exits with the nonzero status of the stage that
failed; when the stages respect a classification of statuses that puts -10
among the data statuses, that classification recovers the kind of failure. -/
theorem main_exit_kind (kindOf : Int → FailureKind) (h10 : kindOf (-10) = FailureKind.data)
    (sys : Syscalls) (dl : Dlfcn) (hr : Respects kindOf sys dl) (k : FailureKind)
    (hk : failureKind sys dl = some k) :
    ∃ c, (main sys dl).result = some c ∧ c ≠ 0 ∧ kindOf c = k := by
  obtain ⟨hrd, hop, hfn⟩ := hr
  unfold failureKind at hk
  by_cases h1 : (cellRead sys).ret = CKB_SUCCESS
  · by_cases h2 : (cellRead sys).len < 33
    · have hk2 : k = FailureKind.data := by
        simpa [h1, h2] using hk.symm
      exact ⟨-10, by rw [main_of_read_short sys dl h1 h2], by decide, by rw [hk2]; exact h10⟩
    · have hlen : 33 ≤ (cellRead sys).len := Nat.le_of_not_lt h2
      by_cases h3 : (cellLoad sys dl).ret = CKB_SUCCESS
      · rw [main_of_load_ok sys dl h1 hlen h3]
        simp only [h1, h2, h3, ne_eq, not_true_eq_false, or_self, if_false] at hk
        cases hres : (callPtr dl (dl.ckb_dlsym (cellLoad sys dl).handle "validate_tx") 2).result with
        | none => rw [hres] at hk; exact absurd hk (by simp)
        | some c =>
          rw [hres] at hk
          by_cases hc : c = CKB_SUCCESS
          · simp [hc] at hk
          · have hk2 : k = FailureKind.verification := by simpa [hc] using hk.symm
            exact ⟨c, rfl, hc, by rw [hk2]; exact hfn c hres hc⟩
      · have hk2 : k = FailureKind.loader := by
          simpa [h1, h2, h3] using hk.symm
        exact ⟨(cellLoad sys dl).ret, by rw [main_of_load_failed sys dl h1 hlen h3], h3,
          by rw [hk2]; exact hop h3⟩
  · have hk2 : k = FailureKind.data := by
      simpa [h1] using hk.symm
    exact ⟨(cellRead sys).ret, by rw [main_of_read_failed sys dl h1], h1,
      by rw [hk2]; exact hrd h1⟩

/-- C1: when the cell-data read reports success but leaves a length below 33,
`main` returns -10 (DataUnavailable, nonzero) and the read is the only call it
makes: neither the loader, nor the symbol lookup, nor a loaded function runs. -/
theorem main_short_read (sys : Syscalls) (dl : Dlfcn)
    (hret : (sys.ckb_load_cell_data 33 0 0 Source.CKB_SOURCE_GROUP_OUTPUT).ret = CKB_SUCCESS)
    (hlen : (sys.ckb_load_cell_data 33 0 0 Source.CKB_SOURCE_GROUP_OUTPUT).len < 33) :
    main sys dl
        = ⟨some (-10), [Call.load_cell_data 33 0 0 Source.CKB_SOURCE_GROUP_OUTPUT]⟩
      ∧ ((-10 : Int) ≠ 0) :=
  ⟨main_of_read_short sys dl hret hlen, by decide⟩

/-- Witness of C1 at a read of 10 bytes. -/
theorem main_short_read_witness :
    main (sysOf 0 0 10) (dlOf 0 4096 (fun _ => ⟨some 0, []⟩))
        = ⟨some (-10), [Call.load_cell_data 33 0 0 Source.CKB_SOURCE_GROUP_OUTPUT]⟩
      ∧ ((-10 : Int) ≠ 0) :=
  main_short_read (sysOf 0 0 10) (dlOf 0 4096 (fun _ => ⟨some 0, []⟩)) rfl (by decide)

/-- At the input of C2 (read of 33 bytes succeeds, load succeeds, `ckb_dlsym`
returns `NULL`) `main` does not return -11: the test of line 27 is not taken,
the call `validate_func(2)` goes through the null pointer and the run leaves
defined behaviour. -/
theorem main_null_symbol_no_status :
    main (sysOf 0 0 33) (dlOf 0 0 (fun _ => ⟨some 0, []⟩))
      = ⟨none,
          [Call.load_cell_data 33 0 0 Source.CKB_SOURCE_GROUP_OUTPUT,
           Call.dlopen2 (cellBytes 0) 0 131072,
           Call.dlsym 7 "validate_tx",
           Call.invoke 0 2]⟩ := by
  decide

/-- C3: `main` fails fast with the failing stage's own status.  For a nonzero
status `r`: if the cell-data read returns `r`, `main` returns `r` and the read
is its only call; if the read succeeds with at least 33 bytes and `ckb_dlopen2`
returns `r`, `main` returns `r` after the read and the load only (no symbol
lookup, no call of a loaded function). -/
theorem main_fail_fast (sys : Syscalls) (dl : Dlfcn) (r : Int) (hr : r ≠ 0) :
    ((sys.ckb_load_cell_data 33 0 0 Source.CKB_SOURCE_GROUP_OUTPUT).ret = r →
      main sys dl = ⟨some r, [Call.load_cell_data 33 0 0 Source.CKB_SOURCE_GROUP_OUTPUT]⟩)
    ∧ ((sys.ckb_load_cell_data 33 0 0 Source.CKB_SOURCE_GROUP_OUTPUT).ret = CKB_SUCCESS →
        33 ≤ (sys.ckb_load_cell_data 33 0 0 Source.CKB_SOURCE_GROUP_OUTPUT).len →
        (dl.ckb_dlopen2 (cellRead sys).data (byte32 (cellRead sys).data) 131072).ret = r →
        main sys dl = ⟨some r, [Call.load_cell_data 33 0 0 Source.CKB_SOURCE_GROUP_OUTPUT,
          Call.dlopen2 (cellRead sys).data (byte32 (cellRead sys).data) 131072]⟩) := by
  constructor
  · intro h
    have h1 : (cellRead sys).ret ≠ CKB_SUCCESS := by rw [cellRead, h]; exact hr
    rw [main_of_read_failed sys dl h1, cellRead, h]; rfl
  · intro h hlen hdl
    have h1 : (cellLoad sys dl).ret ≠ CKB_SUCCESS := by
      rw [cellLoad]; show (dl.ckb_dlopen2 _ _ 131072).ret ≠ CKB_SUCCESS; rw [hdl]; exact hr
    rw [main_of_load_failed sys dl h hlen h1, cellLoad]
    show (⟨some (dl.ckb_dlopen2 _ _ 131072).ret, _⟩ : Run) = _
    rw [hdl]; rfl

/-- Witness of C3: a read failing with status 2, and a load failing with
status -21 after a read of 33 bytes. -/
theorem main_fail_fast_witness :
    main (sysOf 2 0 0) (dlOf 0 4096 (fun _ => ⟨some 0, []⟩))
        = ⟨some 2, [Call.load_cell_data 33 0 0 Source.CKB_SOURCE_GROUP_OUTPUT]⟩
    ∧ main (sysOf 0 1 33) (dlOf (-21) 4096 (fun _ => ⟨some 0, []⟩))
        = ⟨some (-21), [Call.load_cell_data 33 0 0 Source.CKB_SOURCE_GROUP_OUTPUT,
                        Call.dlopen2 (cellBytes 1) 1 131072]⟩ :=
  ⟨(main_fail_fast (sysOf 2 0 0) (dlOf 0 4096 (fun _ => ⟨some 0, []⟩)) 2 (by decide)).1 rfl,
   (main_fail_fast (sysOf 0 1 33) (dlOf (-21) 4096 (fun _ => ⟨some 0, []⟩)) (-21)
      (by decide)).2 rfl (by decide) rfl⟩

/-- C4: when the read succeeds with at least 33 bytes, the load succeeds and
`validate_tx` resolves to a function `f` (stored at the non-null address `a`),
`main` returns what `f 2` returns, and its calls are the read, the load, the
lookup and one call of `a` with argument 2, followed by the calls `f 2` makes. -/
theorem main_invokes_resolved (sys : Syscalls) (dl : Dlfcn) (a : Nat) (f : Nat → Run)
    (hret : (cellRead sys).ret = CKB_SUCCESS) (hlen : 33 ≤ (cellRead sys).len)
    (hload : (cellLoad sys dl).ret = CKB_SUCCESS)
    (hsym : dl.ckb_dlsym (cellLoad sys dl).handle "validate_tx" = a)
    (ha : a ≠ 0) (hf : dl.text a = some f) :
    (main sys dl).result = (f 2).result
    ∧ (main sys dl).trace
        = [Call.load_cell_data 33 0 0 Source.CKB_SOURCE_GROUP_OUTPUT,
           Call.dlopen2 (cellRead sys).data (byte32 (cellRead sys).data) 131072,
           Call.dlsym (cellLoad sys dl).handle "validate_tx",
           Call.invoke a 2] ++ (f 2).trace := by
  rw [main_of_load_ok sys dl hret hlen hload, hsym]
  simp only [callPtr, ha, if_false, hf, traceLookup, List.cons_append, List.nil_append,
    and_self]

/-- Witness of C4: the resolved function returns 5, and so does `main`. -/
theorem main_invokes_resolved_witness :
    (main (sysOf 0 0 33) (dlOf 0 4096 (fun n => ⟨some (if n = 2 then 5 else 0), []⟩))).result = some 5
    ∧ (main (sysOf 0 0 33) (dlOf 0 4096 (fun n => ⟨some (if n = 2 then 5 else 0), []⟩))).trace
        = [Call.load_cell_data 33 0 0 Source.CKB_SOURCE_GROUP_OUTPUT,
           Call.dlopen2 (cellBytes 0) 0 131072,
           Call.dlsym 7 "validate_tx",
           Call.invoke 4096 2] ++ [] :=
  main_invokes_resolved (sysOf 0 0 33) (dlOf 0 4096 (fun n => ⟨some (if n = 2 then 5 else 0), []⟩)) 4096
    (fun n => ⟨some (if n = 2 then 5 else 0), []⟩) rfl (by decide) rfl (by decide) (by decide) rfl

/-- C5: for every offset and every nonzero status `r`, if reading the identity
from the script arguments at that offset returns `r`, `validate_tx` returns
`r` and the read is its only call: the verifier is never invoked. -/
theorem validate_tx_read_failed (lib : TypeId) (offset : Nat) (r : Int) (hr : r ≠ 0)
    (h : (lib.ckb_load_type_id_from_script_args offset).ret = r) :
    validate_tx lib offset = ⟨some r, [Call.load_type_id_from_script_args offset]⟩ := by
  simp only [validate_tx, h, CKB_SUCCESS, ne_eq, hr, not_false_eq_true, if_true]

/-- Witness of C5: thirty-three argument bytes leave 31 from offset 2, the
reader fails with its `ArgsTooShort` status and `validate_tx` returns it. -/
theorem validate_tx_read_failed_witness :
    validate_tx (libOf (List.replicate 33 9) (some (constId 9))) 2
      = ⟨some (-1), [Call.load_type_id_from_script_args 2]⟩ :=
  validate_tx_read_failed (libOf (List.replicate 33 9) (some (constId 9))) 2 (-1)
    (by decide) (by decide)

/-- C6: for every offset at which the identity is read successfully,
`validate_tx` calls the reader at that offset, then the verifier on the 32
bytes the reader left, and returns the verifier's result; with the verifier of
the spec that result is success (0) when those bytes equal the recomputed
identity and the Mismatch status otherwise. -/
theorem validate_tx_verifies (lib : TypeId) (offset : Nat)
    (h : (lib.ckb_load_type_id_from_script_args offset).ret = CKB_SUCCESS) :
    validate_tx lib offset
        = ⟨some (lib.ckb_validate_type_id (lib.ckb_load_type_id_from_script_args offset).type_id),
           [Call.load_type_id_from_script_args offset,
            Call.validate_type_id (lib.ckb_load_type_id_from_script_args offset).type_id]⟩
    ∧ ∀ (Mismatch TransactionDataUnavailable : Failure) (recomputed : Bytes 32),
        lib.ckb_validate_type_id
            = spec_validate_type_id Mismatch TransactionDataUnavailable (some recomputed) →
        (validate_tx lib offset).result
          = some (if (lib.ckb_load_type_id_from_script_args offset).type_id = recomputed
                  then 0 else Mismatch.val) := by
  have key := validate_tx_of_read_ok lib offset h
  refine ⟨key, ?_⟩
  intro m t id hv
  rw [key, hv]
  simp only [spec_validate_type_id, CKB_SUCCESS]

/-- Witness of C6: the arguments hold the identity of thirty-two bytes 7 at
offset 2.  When it is the recomputed one the verifier is called on it and
`validate_tx` returns 0; when the recomputed one is thirty-two bytes 8,
`validate_tx` returns the Mismatch status -2. -/
theorem validate_tx_verifies_witness :
    validate_tx (libOf scenarioArgs (some (constId 7))) 2
        = ⟨some 0, [Call.load_type_id_from_script_args 2, Call.validate_type_id (constId 7)]⟩
    ∧ (validate_tx (libOf scenarioArgs (some (constId 8))) 2).result
        = some (if (constId 7 : Bytes 32) = constId 8 then 0 else -2) :=
  ⟨(validate_tx_verifies (libOf scenarioArgs (some (constId 7))) 2 rfl).1,
   (validate_tx_verifies (libOf scenarioArgs (some (constId 8))) 2 rfl).2
      ⟨-2, by decide⟩ ⟨-3, by decide⟩ (constId 8) rfl⟩

/-- C7: end to end, when the cell-data read returns 33 bytes, the load
succeeds, `validate_tx` resolves to lib_sample's function, the identity is read
from the script arguments at offset 2 and the verifier returns success on it,
`main` exits with 0. -/
theorem end_to_end_success (sys : Syscalls) (dl : Dlfcn) (a : Nat) (lib : TypeId)
    (hret : (cellRead sys).ret = CKB_SUCCESS) (hlen : (cellRead sys).len = 33)
    (hload : (cellLoad sys dl).ret = CKB_SUCCESS)
    (hsym : dl.ckb_dlsym (cellLoad sys dl).handle "validate_tx" = a) (ha : a ≠ 0)
    (hargs : (lib.ckb_load_type_id_from_script_args 2).ret = CKB_SUCCESS)
    (hver : lib.ckb_validate_type_id (lib.ckb_load_type_id_from_script_args 2).type_id
      = CKB_SUCCESS) :
    (main sys (linked dl a lib)).result = some 0 := by
  rw [main_linked sys dl a lib hret (le_of_eq hlen.symm) hload hsym ha,
    validate_tx_of_read_ok lib 2 hargs, hver]
  rfl

/-- Witness of C7: scenario A, the cell data being thirty-two zero bytes and
the selector 0. -/
theorem end_to_end_success_witness :
    (main (sysData (cellBytes 0))
      (linked (hashLoader (libOf scenarioArgs (some (constId 7)))) 4096
        (libOf scenarioArgs (some (constId 7))))).result = some 0 :=
  end_to_end_success (sysData (cellBytes 0)) (hashLoader (libOf scenarioArgs (some (constId 7))))
    4096 (libOf scenarioArgs (some (constId 7))) rfl rfl rfl (by decide) (by decide) rfl
    (by decide)

/-- C8 fails as stated.  Scenario A (cell data of thirty-two zero bytes and
selector 0, matching identity in the arguments at offset 2) exits with 0.  With
bit 0 of byte 0 of the cell data flipped, the loader is handed another code
hash: a loader that finds its cell by that hash fails, `main` exits with the
loader's status 1 after the read and the load, the verifier never runs, and 1
is not the status the verifier gives to a mismatching identity; a loader that
does not look at the hash lets the run exit with 0 again. -/
theorem flipped_cell_data_not_mismatch :
    (main (sysData (cellBytes 0)) (hashLoader (libOf scenarioArgs (some (constId 7))))).result
        = some 0
    ∧ main (sysData (flipBit (cellBytes 0) 0 0))
          (hashLoader (libOf scenarioArgs (some (constId 7))))
        = ⟨some 1, [Call.load_cell_data 33 0 0 Source.CKB_SOURCE_GROUP_OUTPUT,
                    Call.dlopen2 (flipBit (cellBytes 0) 0 0) 0 131072]⟩
    ∧ (libOf scenarioArgs (some (constId 7))).ckb_validate_type_id (flipBit (constId 7) 0 0)
        = -2
    ∧ (main (sysData (flipBit (cellBytes 0) 0 0))
          (dlOf 0 4096 (validate_tx (libOf scenarioArgs (some (constId 7)))))).result
        = some 0 := by
  decide

/-- C8, amended: the identity the verifier compares is the one read from the
script arguments, not the cell data.  For every end-to-end run that exits with
0 (read of 33 bytes, load and lookup succeed, verifier as in the spec), the run
that differs only by one flipped bit (bit `k` of byte `i`) in the 32 identity
bytes read from the script arguments at offset 2 exits with the verifier's
Mismatch status, which is nonzero. -/
theorem end_to_end_flipped_identity (sys : Syscalls) (dl : Dlfcn) (a : Nat)
    (lib lib2 : TypeId) (Mismatch TransactionDataUnavailable : Failure)
    (recomputed : Option (Bytes 32)) (i k : Nat)
    (hret : (cellRead sys).ret = CKB_SUCCESS) (hlen : (cellRead sys).len = 33)
    (hload : (cellLoad sys dl).ret = CKB_SUCCESS)
    (hsym : dl.ckb_dlsym (cellLoad sys dl).handle "validate_tx" = a) (ha : a ≠ 0)
    (hv : lib.ckb_validate_type_id
      = spec_validate_type_id Mismatch TransactionDataUnavailable recomputed)
    (hv2 : lib2.ckb_validate_type_id = lib.ckb_validate_type_id)
    (hA : (main sys (linked dl a lib)).result = some 0)
    (hi : i < 32)
    (hflip : lib2.ckb_load_type_id_from_script_args 2
      = ⟨CKB_SUCCESS, flipBit (lib.ckb_load_type_id_from_script_args 2).type_id i k⟩) :
    (main sys (linked dl a lib2)).result = some Mismatch.val ∧ Mismatch.val ≠ 0 := by
  refine ⟨?_, Mismatch.property⟩
  have hlen2 : 33 ≤ (cellRead sys).len := le_of_eq hlen.symm
  rw [main_linked sys dl a lib hret hlen2 hload hsym ha] at hA
  rw [main_linked sys dl a lib2 hret hlen2 hload hsym ha]
  have hargs : (lib.ckb_load_type_id_from_script_args 2).ret = CKB_SUCCESS := by
    by_contra hne
    rw [validate_tx_of_read_failed lib 2 hne] at hA
    exact hne (Option.some.inj hA)
  rw [validate_tx_of_read_ok lib 2 hargs, hv] at hA
  have hargs2 : (lib2.ckb_load_type_id_from_script_args 2).ret = CKB_SUCCESS := by
    rw [hflip]
  rw [validate_tx_of_read_ok lib2 2 hargs2, hv2, hv, hflip]
  have hA2 : spec_validate_type_id Mismatch TransactionDataUnavailable recomputed
      (lib.ckb_load_type_id_from_script_args 2).type_id = 0 := Option.some.inj hA
  cases recomputed with
  | none => exact absurd hA2 TransactionDataUnavailable.property
  | some id =>
    simp only [spec_validate_type_id] at hA2 ⊢
    by_cases hid : (lib.ckb_load_type_id_from_script_args 2).type_id = id
    · have hne : flipBit (lib.ckb_load_type_id_from_script_args 2).type_id i k ≠ id := by
        rw [← hid]
        exact flipBit_ne _ i k hi
      rw [if_neg hne]
    · rw [if_neg hid] at hA2
      exact absurd hA2 Mismatch.property

/-- Witness of C8, amended: scenario A, and the same run with bit 0 of the
first identity byte of the arguments (index 2) flipped from 7 to 6. -/
theorem end_to_end_flipped_identity_witness :
    (main (sysData (cellBytes 0))
      (linked (hashLoader (libOf scenarioArgs (some (constId 7)))) 4096
        (libOf (scenarioArgs.set 2 6) (some (constId 7))))).result = some (-2)
    ∧ (-2 : Int) ≠ 0 :=
  end_to_end_flipped_identity (sysData (cellBytes 0))
    (hashLoader (libOf scenarioArgs (some (constId 7)))) 4096
    (libOf scenarioArgs (some (constId 7))) (libOf (scenarioArgs.set 2 6) (some (constId 7)))
    ⟨-2, by decide⟩ ⟨-3, by decide⟩ (some (constId 7)) 0 0
    rfl rfl rfl (by decide) (by decide) rfl rfl (by decide) (by decide) rfl

/-- C9 fails as stated: a run whose cell-data read fails with status 1 (a data
error) and a run whose load fails with status 1 after a read of 33 bytes (a
loader error) fail in different kinds and exit with the same code 1. -/
theorem same_exit_code_two_kinds :
    failureKind (sysOf 1 0 0) (dlOf 0 4096 (fun _ => ⟨some 0, []⟩)) = some FailureKind.data
    ∧ failureKind (sysOf 0 0 33) (dlOf 1 4096 (fun _ => ⟨some 0, []⟩))
        = some FailureKind.loader
    ∧ (main (sysOf 1 0 0) (dlOf 0 4096 (fun _ => ⟨some 0, []⟩))).result = some 1
    ∧ (main (sysOf 0 0 33) (dlOf 1 4096 (fun _ => ⟨some 0, []⟩))).result = some 1 := by
  decide

/-- C9, amended: `main` passes the failing stage's status through unchanged
(-10 for the short read), so the exit status identifies the failure kind as far
as the stages' own statuses do.  For any two runs that fail in different kinds
(data error, loader error, nonzero status of the loaded function) and whose
stages draw their statuses according to one classification `kindOf` of the
statuses into kinds, with -10 a data status, the two exit codes are nonzero
and different from each other. -/
theorem exit_codes_distinct (kindOf : Int → FailureKind)
    (h10 : kindOf (-10) = FailureKind.data)
    (sys1 : Syscalls) (dl1 : Dlfcn) (sys2 : Syscalls) (dl2 : Dlfcn)
    (hr1 : Respects kindOf sys1 dl1) (hr2 : Respects kindOf sys2 dl2)
    (k1 k2 : FailureKind)
    (hk1 : failureKind sys1 dl1 = some k1) (hk2 : failureKind sys2 dl2 = some k2)
    (hne : k1 ≠ k2) :
    ∃ c1 c2, (main sys1 dl1).result = some c1 ∧ (main sys2 dl2).result = some c2
      ∧ c1 ≠ 0 ∧ c2 ≠ 0 ∧ c1 ≠ c2 := by
  obtain ⟨c1, e1, n1, q1⟩ := main_exit_kind kindOf h10 sys1 dl1 hr1 k1 hk1
  obtain ⟨c2, e2, n2, q2⟩ := main_exit_kind kindOf h10 sys2 dl2 hr2 k2 hk2
  refine ⟨c1, c2, e1, e2, n1, n2, ?_⟩
  intro h
  apply hne
  rw [← q1, ← q2, h]

/-- Witness of C9, amended: a short read (exit -10) against a load failing
with status -21, under the classification by sign and size. -/
theorem exit_codes_distinct_witness :
    ∃ c1 c2, (main (sysOf 0 0 10) (dlOf 0 4096 (fun _ => ⟨some 0, []⟩))).result = some c1
      ∧ (main (sysOf 0 0 33) (dlOf (-21) 4096 (fun _ => ⟨some 0, []⟩))).result = some c2
      ∧ c1 ≠ 0 ∧ c2 ≠ 0 ∧ c1 ≠ c2 :=
  exit_codes_distinct kindBySign (by decide)
    (sysOf 0 0 10) (dlOf 0 4096 (fun _ => ⟨some 0, []⟩))
    (sysOf 0 0 33) (dlOf (-21) 4096 (fun _ => ⟨some 0, []⟩))
    ⟨fun h => absurd rfl h, fun h => absurd rfl h, fun c hc hne => by
      have h0 : c = 0 := (Option.some.inj hc).symm
      exact absurd h0 hne⟩
    ⟨fun h => absurd rfl h, fun _ => by decide, fun c hc hne => by
      have h0 : c = 0 := (Option.some.inj hc).symm
      exact absurd h0 hne⟩
    FailureKind.data FailureKind.loader (by decide) (by decide) (by decide)

/-- C10: when the cell-data read returns exactly 33 bytes, the length check
passes and `main` hands the loader the buffer, its byte at index 32 as the
format selector and the capacity 131072; with a loader that checks the
selector as the spec has it, a byte at index 32 that is neither 0 nor 1 makes
`main` exit with the (nonzero) UnsupportedFormat status after the read and the
load only: no symbol is looked up and no loaded function is invoked. -/
theorem main_selector (sys : Syscalls) (dl : Dlfcn)
    (hret : (cellRead sys).ret = CKB_SUCCESS) (hlen : (cellRead sys).len = 33) :
    (main sys dl).trace.take 2
        = [Call.load_cell_data 33 0 0 Source.CKB_SOURCE_GROUP_OUTPUT,
           Call.dlopen2 (cellRead sys).data ((cellRead sys).data.val.getD 32 0) 131072]
    ∧ ∀ (UnsupportedFormat : Failure) (load : Bytes 33 → Nat → Nat → DlOpen),
        dl.ckb_dlopen2 = spec_dlopen2 UnsupportedFormat load →
        (cellRead sys).data.val.getD 32 0 ≠ 0 → (cellRead sys).data.val.getD 32 0 ≠ 1 →
        main sys dl
          = ⟨some UnsupportedFormat.val,
             [Call.load_cell_data 33 0 0 Source.CKB_SOURCE_GROUP_OUTPUT,
              Call.dlopen2 (cellRead sys).data ((cellRead sys).data.val.getD 32 0) 131072]⟩
        ∧ UnsupportedFormat.val ≠ 0 := by
  have hlen2 : 33 ≤ (cellRead sys).len := le_of_eq hlen.symm
  have hsel : byte32 (cellRead sys).data = (cellRead sys).data.val.getD 32 0 := by
    have h : 32 < (cellRead sys).data.val.length := by
      rw [(cellRead sys).data.property]; decide
    rw [byte32, List.getD_eq_getElem (cellRead sys).data.val 0 h]
    rfl
  rw [← hsel]
  constructor
  · by_cases h3 : (cellLoad sys dl).ret = CKB_SUCCESS
    · rw [main_of_load_ok sys dl hret hlen2 h3]
      rfl
    · rw [main_of_load_failed sys dl hret hlen2 h3]
      rfl
  · intro u load hdl h0 h1
    have hl : (cellLoad sys dl).ret = u.val := by
      rw [cellLoad, hdl]
      simp only [spec_dlopen2, h0, h1, or_self, if_false]
    have h3 : (cellLoad sys dl).ret ≠ CKB_SUCCESS := by
      rw [hl]; exact u.property
    refine ⟨?_, u.property⟩
    rw [main_of_load_failed sys dl hret hlen2 h3, hl]
    rfl

/-- Witness of C10: a read of exactly 33 bytes whose byte at index 32 is 2,
after thirty-two bytes 5. -/
theorem main_selector_witness :
    main ⟨fun _ _ _ _ => ⟨0, ⟨List.replicate 32 5 ++ [2], by decide⟩, 33⟩⟩ selectorLoader
      = ⟨some (-4),
         [Call.load_cell_data 33 0 0 Source.CKB_SOURCE_GROUP_OUTPUT,
          Call.dlopen2 ⟨List.replicate 32 5 ++ [2], by decide⟩
            ((List.replicate 32 5 ++ [2]).getD 32 0) 131072]⟩
    ∧ (-4 : Int) ≠ 0 :=
  (main_selector ⟨fun _ _ _ _ => ⟨0, ⟨List.replicate 32 5 ++ [2], by decide⟩, 33⟩⟩
    selectorLoader rfl rfl).2 ⟨-4, by decide⟩
    (fun _ _ _ => ⟨0, 7, 8192⟩) rfl (by decide) (by decide)

end CkbGuidelines
